import Mathlib

/-!
Verification development for the transcript-retrieval and LLM-summarization
pipeline of `context_analysis.py` (YouTube-Video-Analysis).

The Python source is shallowly embedded: pure functions become Lean
functions, the external captions-listing / caption-fetch service and the
LLM chat client are passed in as explicit parameters, Python exceptions
become `Except`, printed diagnostics become an explicit log, and the
dynamic values produced by evaluating the model reply are modelled by a
small `PyVal` universe.
-/

/-! ## Data model -/

/-- A caption track of the external captions service.
Modelled from the spec: attributes are the language code, the
is-auto-generated flag and the is-translatable flag (spec section 3,
CaptionTrack). -/
structure CaptionTrack where
  languageCode : String
  isGenerated : Bool
  isTranslatable : Bool
deriving DecidableEq, Repr

/-- One caption entry: a start offset in seconds and its text
(spec section 3, TranscriptSegment). Offsets are modelled as rationals,
standing for the finitely-represented float offsets of the source. -/
structure TranscriptSegment where
  start : ℚ
  text : String

/-- The external captions service seen by `get_video_transcript`.
Modelled from the spec: a captions-listing/fetch service keyed by video id;
`listTracks` is the track enumeration for the (fixed) video id, `fetch`
returns the segment list of a chosen track.  Errors stand for the
exceptions the service may raise (captions disabled, network failure). -/
structure CaptionsEnv where
  listTracks : Except String (List CaptionTrack)
  fetch : CaptionTrack → Except String (List TranscriptSegment)

/-! ## Track selection (source lines 26-43) -/

/-- A manually authored track in the target language `ko`
(first attempt, source line 33 with `is_auto_generated = False`). -/
def isManualTarget (t : CaptionTrack) : Bool :=
  t.languageCode == "ko" && !t.isGenerated

/-- An auto-generated track in the target language `ko`
(second attempt, source line 38 with `is_auto_generated = True`). -/
def isGeneratedTarget (t : CaptionTrack) : Bool :=
  t.languageCode == "ko" && t.isGenerated

/-- A track in the fallback source language `en` that can be machine
translated (third attempt, source line 42). -/
def isTranslatableSource (t : CaptionTrack) : Bool :=
  t.languageCode == "en" && t.isTranslatable

/-- Machine translation of a track into another language.
Modelled from the spec: the translated track is in the requested language
and counts as auto-generated (machine translated). -/
def translateTrack (t : CaptionTrack) (lang : String) : CaptionTrack :=
  ⟨lang, true, t.isTranslatable⟩

/-- The ordered fallback chain of source lines 31-43: manual `ko` track
(flag `false`), else auto-generated `ko` track (flag `true`), else an `en`
track translated to `ko` (flag `true`).  Returns the chosen track together
with the `is_auto_generated` flag the source computes alongside it. -/
def selectTranscript (tracks : List CaptionTrack) : Option (CaptionTrack × Bool) :=
  match tracks.find? isManualTarget with
  | some t => some (t, false)
  | Option.none =>
    match tracks.find? isGeneratedTarget with
    | some t => some (t, true)
    | Option.none =>
      match tracks.find? isTranslatableSource with
      | some t => some (translateTrack t "ko", true)
      | Option.none => Option.none

/-! ## Transcript retrieval (source lines 15-56) -/

/-- Plain-text conversion of a fetched segment list.
Modelled from the spec: plain text is the segment texts concatenated in
reading order (the external `TextFormatter` joins them with newlines). -/
def text_formatter_format (segs : List TranscriptSegment) : String :=
  String.intercalate "\n" (segs.map (fun s => s.text))

/-- The diagnostic header printed by the outer handler of
`get_video_transcript` (source line 55). -/
def transcriptErrHeader : String := "자막을 가져오는 중 오류가 발생했습니다: "

/-- Message of the exception raised when no attempt of the fallback chain
finds a track.  Modelled from the spec: a human-readable diagnostic for
the no-transcript case. -/
def noTranscriptMsg : String := "no transcript was found in any requested language"

/-- Embedding of `get_video_transcript` (source lines 15-56): list the
tracks, run the fallback chain, fetch and format the chosen track.  Every
failure is caught by the outer `try`/`except`, which prints a diagnostic
and returns `None`; the result is the optional transcript text paired with
the list of printed diagnostics.  The computed `is_auto_generated` flag is
bound but unused, exactly as in the source. -/
def get_video_transcript (cenv : CaptionsEnv) : Option String × List String :=
  match cenv.listTracks with
  | Except.error e => (Option.none, [transcriptErrHeader ++ e])
  | Except.ok tracks =>
    match selectTranscript tracks with
    | Option.none => (Option.none, [transcriptErrHeader ++ noTranscriptMsg])
    | some (t, _isAutoGenerated) =>
      match cenv.fetch t with
      | Except.error e => (Option.none, [transcriptErrHeader ++ e])
      | Except.ok segs => (some (text_formatter_format segs), [])

/-! ## Time-code formatting (source lines 58-74) -/

/-- Python float modulo `a % b`: `a - b * (a // b)` with floor division. -/
def pymod (a b : ℚ) : ℚ := a - b * ((⌊a / b⌋ : ℤ) : ℚ)

/-- Rendering of the format `02d` of an f-string: zero-pad a nonnegative single digit to two
characters, otherwise the plain decimal rendering. -/
def pad2 (n : ℤ) : String :=
  if 0 ≤ n ∧ n < 10 then "0" ++ toString n else toString n

/-- Embedding of `format_time` (source lines 58-74): `hours`, `minutes`
and `seconds` are computed with Python floor division and modulo and
truncated to integers; the rendering is `HH:MM:SS` when `hours > 0` and
`MM:SS` otherwise. -/
def format_time (seconds : ℚ) : String :=
  let hours : ℤ := ⌊seconds / 3600⌋
  let minutes : ℤ := ⌊pymod seconds 3600 / 60⌋
  let secs : ℤ := ⌊pymod seconds 60⌋
  if 0 < hours then pad2 hours ++ ":" ++ pad2 minutes ++ ":" ++ pad2 secs
  else pad2 minutes ++ ":" ++ pad2 secs

/-- Zero-padding to two digits on naturals, for the spec-side renderer. -/
def padTwo (n : ℕ) : String :=
  if n < 10 then "0" ++ toString n else toString n

/-- Spec-side renderer, written from the words of the spec: take the whole
number of seconds, render `HH:MM:SS` when the offset is at least one hour
and `MM:SS` otherwise, with zero-padded two-digit fields. -/
def formatTimeSpec (n : ℕ) : String :=
  if 3600 ≤ n then
    padTwo (n / 3600) ++ ":" ++ padTwo (n % 3600 / 60) ++ ":" ++ padTwo (n % 60)
  else padTwo (n / 60) ++ ":" ++ padTwo (n % 60)

/-! ## Time-coded rendering (source lines 76-96) -/

/-- Embedding of `get_transcript_with_timestamps` (source lines 76-96).
The source first applies the falsy test `if not transcript_result` to the
resolver output (`None` and the empty string are falsy) and returns
`None`; otherwise it subscripts `transcript_result` with the key `segments` — but the
resolver returned a plain `str`, and subscripting a `str` with a `str` key
raises `TypeError`, which nothing in this function catches.  The `Except`
layer models that uncaught exception; the printed log of the resolver is
passed through. -/
def get_transcript_with_timestamps (cenv : CaptionsEnv) :
    Except String (Option String) × List String :=
  let r := get_video_transcript cenv
  match r.1 with
  | Option.none => (Except.ok Option.none, r.2)
  | some text =>
    if text = "" then (Except.ok Option.none, r.2)
    else (Except.error "TypeError: string indices must be integers", r.2)

/-- Spec-side time-coded rendering, written from the words of the spec: one
line per segment, the formatted start time in square brackets, a space,
then the segment text, lines joined by newlines. -/
def timecodeRenderingSpec (segs : List TranscriptSegment) : String :=
  String.intercalate "\n"
    (segs.map (fun s => "[" ++ format_time s.start ++ "] " ++ s.text))

/-! ## Python dynamic values

`summarize_transcript` evaluates the model reply with Python `eval` and
then manipulates the resulting dynamic value.  `PyVal` is the universe of
values those manipulations can meet; `PyExpr` is the expression form the
reply parses to, including call expressions, whose evaluation is a side
effect recorded in a trace. -/

/-- Dynamic Python values reachable in the reply-processing code. -/
inductive PyVal where
  | str : String → PyVal
  | int : Int → PyVal
  | list : List PyVal → PyVal
  | dict : List (String × PyVal) → PyVal
  | pyNone : PyVal

/-- Python expressions a textual reply can parse to: the literal shapes
the prompt requests, plus call expressions (evaluating one executes
code). -/
inductive PyExpr where
  | str : String → PyExpr
  | int : Int → PyExpr
  | list : List PyExpr → PyExpr
  | dict : List (String × PyExpr) → PyExpr
  | call : String → List PyExpr → PyExpr
  | pyNone : PyExpr

/-- A model reply as handed to `eval`: either text that fails to parse as
a Python expression, or the expression it parses to. -/
inductive PyReply where
  | malformed : String → PyReply
  | expr : PyExpr → PyReply

/-- Insert or update a key in a Python dict, keeping first-insertion
order and replacing the value of an existing key. -/
def setKey (kvs : List (String × PyVal)) (k : String) (v : PyVal) :
    List (String × PyVal) :=
  if kvs.any (fun kv => kv.1 == k) then
    kvs.map (fun kv => if kv.1 == k then (k, v) else kv)
  else kvs ++ [(k, v)]

/-- Lookup of a key in a Python dict value. -/
def dictLookup (kvs : List (String × PyVal)) (k : String) : Option PyVal :=
  (kvs.find? (fun kv => kv.1 == k)).map (fun kv => kv.2)

mutual

/-- Evaluation phase of Python `eval` on a parsed expression: literals
build the corresponding value; a call expression evaluates its arguments,
is executed — recorded in the effect trace — and yields `None` here (its
value is irrelevant, the execution is the point). -/
def evalExpr : PyExpr → List String × PyVal
  | PyExpr.str s => ([], PyVal.str s)
  | PyExpr.int n => ([], PyVal.int n)
  | PyExpr.pyNone => ([], PyVal.pyNone)
  | PyExpr.list es =>
    let r := evalElems es
    (r.1, PyVal.list r.2)
  | PyExpr.dict kvs =>
    let r := evalEntries kvs
    (r.1, PyVal.dict (r.2.foldl (fun acc kv => setKey acc kv.1 kv.2) []))
  | PyExpr.call f args =>
    let r := evalElems args
    (r.1 ++ [f], PyVal.pyNone)

/-- Left-to-right evaluation of list elements, collecting effects. -/
def evalElems : List PyExpr → List String × List PyVal
  | [] => ([], [])
  | e :: es =>
    let r := evalExpr e
    let rs := evalElems es
    (r.1 ++ rs.1, r.2 :: rs.2)

/-- Left-to-right evaluation of dict entries, collecting effects. -/
def evalEntries : List (String × PyExpr) → List String × List (String × PyVal)
  | [] => ([], [])
  | (k, e) :: kvs =>
    let r := evalExpr e
    let rs := evalEntries kvs
    (r.1 ++ rs.1, (k, r.2) :: rs.2)

end

/-- Python `eval` applied to the model reply (source line 159): malformed
text raises `SyntaxError`; otherwise the parsed expression is executed,
producing a value and an effect trace of the calls that ran. -/
def pyEval : PyReply → Except String PyVal × List String
  | PyReply.malformed msg => (Except.error ("SyntaxError: " ++ msg), [])
  | PyReply.expr e =>
    let r := evalExpr e
    (Except.ok r.2, r.1)

/-- Python subscript `v[k]` with a string key: dict lookup, `KeyError`
when the key is missing, `TypeError` on every non-dict value. -/
def pySubscript : PyVal → String → Except String PyVal
  | PyVal.dict kvs, k =>
    match dictLookup kvs k with
    | some v => Except.ok v
    | Option.none => Except.error ("KeyError: " ++ k)
  | PyVal.str _, _ => Except.error "TypeError: string indices must be integers"
  | PyVal.list _, _ =>
    Except.error "TypeError: list indices must be integers or slices, not str"
  | PyVal.int _, _ => Except.error "TypeError: int object is not subscriptable"
  | PyVal.pyNone, _ => Except.error "TypeError: NoneType object is not subscriptable"

/-- Python item assignment `v[k] = w` on the values reachable here. -/
def pyAssign (v : PyVal) (k : String) (w : PyVal) : Except String PyVal :=
  match v with
  | PyVal.dict kvs => Except.ok (PyVal.dict (setKey kvs k w))
  | PyVal.str _ => Except.error "TypeError: str object does not support item assignment"
  | PyVal.list _ => Except.error "TypeError: list indices must be integers or slices, not str"
  | PyVal.int _ => Except.error "TypeError: int object does not support item assignment"
  | PyVal.pyNone => Except.error "TypeError: NoneType object does not support item assignment"

/-- Python iteration over a value: lists yield their elements, strings
their characters, dicts their keys; ints and `None` are not iterable. -/
def pyIterate : PyVal → Except String (List PyVal)
  | PyVal.list xs => Except.ok xs
  | PyVal.str s => Except.ok (s.toList.map (fun c => PyVal.str (String.singleton c)))
  | PyVal.dict kvs => Except.ok (kvs.map (fun kv => PyVal.str kv.1))
  | PyVal.int _ => Except.error "TypeError: int object is not iterable"
  | PyVal.pyNone => Except.error "TypeError: NoneType object is not iterable"

mutual

/-- Python `str()` as used by the f-string `f"• \x7bpoint\x7d"`. -/
def pyStr : PyVal → String
  | PyVal.str s => s
  | PyVal.int n => toString n
  | PyVal.pyNone => "None"
  | PyVal.list xs => "[" ++ String.intercalate ", " (pyReprElems xs) ++ "]"
  | PyVal.dict kvs => "\x7b" ++ String.intercalate ", " (pyReprEntries kvs) ++ "\x7d"

/-- Python `repr()` of a value (strings are quoted). -/
def pyRepr : PyVal → String
  | PyVal.str s => "\x27" ++ s ++ "\x27"
  | PyVal.int n => toString n
  | PyVal.pyNone => "None"
  | PyVal.list xs => "[" ++ String.intercalate ", " (pyReprElems xs) ++ "]"
  | PyVal.dict kvs => "\x7b" ++ String.intercalate ", " (pyReprEntries kvs) ++ "\x7d"

/-- `repr` of the elements of a list value. -/
def pyReprElems : List PyVal → List String
  | [] => []
  | v :: vs => pyRepr v :: pyReprElems vs

/-- `repr` of the entries of a dict value. -/
def pyReprEntries : List (String × PyVal) → List String
  | [] => []
  | (k, v) :: kvs => ("\x27" ++ k ++ "\x27: " ++ pyRepr v) :: pyReprEntries kvs

end

/-- The bulleted join of source lines 162-163:
`"\n".join(f"• \x7bpoint\x7d" for point in vs)`. -/
def bulletLines (vs : List PyVal) : String :=
  String.intercalate "\n" (vs.map (fun v => "• " ++ pyStr v))

/-! ## Summarization (source lines 98-173) -/

/-- Python truthiness test `not OPENAI_API_KEY` of source line 113: the
credential read from the environment is absent (`None`) or empty. -/
def pyFalsyKey : Option String → Bool
  | Option.none => true
  | some s => s == ""

/-- Message of the `ValueError` raised on source line 114. -/
def credErrMsg : String := "ValueError: OpenAI API 키가 설정되지 않았습니다."

/-- The diagnostic header printed by the handler of source line 168. -/
def summaryErrHeader : String := "요약 생성 중 오류가 발생했습니다: "

/-- The summary prompt of source lines 123-147 as `chain.invoke` renders
it: the template with `max_length` and `transcript` substituted and the
doubled braces turned into literal ones. -/
def renderedTemplate (transcript : String) (max_length : Nat) : String :=
  "\n    다음은 유튜브 영상의 자막 내용입니다. 이 내용을 바탕으로 다음 세 가지를 작성해주세요:\n\n" ++
  "    1. 전체 내용 요약 (최대 " ++ toString max_length ++ "자)\n" ++
  "    2. 주요 포인트 (5-7개)\n" ++
  "    3. 주요 주제 (3-5개)\n\n" ++
  "    자막 내용:\n    " ++ transcript ++ "\n\n" ++
  "    다음 형식으로 응답해주세요:\n" ++
  "    \x7b\n" ++
  "        \"summary\": \"전체 내용 요약\",\n" ++
  "        \"key_points\": [\n" ++
  "            \"주요 포인트 1\",\n" ++
  "            \"주요 포인트 2\",\n" ++
  "            ...\n" ++
  "        ],\n" ++
  "        \"topics\": [\n" ++
  "            \"주요 주제 1\",\n" ++
  "            \"주요 주제 2\",\n" ++
  "            ...\n" ++
  "        ]\n" ++
  "    \x7d\n    "

/-- The external LLM chat client: a rendered prompt and a sampling
temperature give the textual reply, here in parsed form. -/
def LlmClient : Type := String → ℚ → PyReply

/-- The fixed fallback record of source lines 169-173. -/
def fallbackDict : PyVal :=
  PyVal.dict
    [("summary", PyVal.str "요약을 생성할 수 없습니다."),
     ("key_points", PyVal.str "주요 포인트를 추출할 수 없습니다."),
     ("topics", PyVal.str "주요 주제를 추출할 수 없습니다.")]

/-- Reply processing after `chain.invoke`, source lines 158-165, inside
the `try` block: `eval` the reply, read and iterate `key_points`, join
with bullets, assign back, and the same for `topics` on the updated dict.
The first component is the record (or the exception text), the second the
effect trace of the calls `eval` executed. -/
def processReply (reply : PyReply) : Except String PyVal × List String :=
  match pyEval reply with
  | (Except.error e, fx) => (Except.error e, fx)
  | (Except.ok d, fx) =>
    (do
      let kp ← pySubscript d "key_points"
      let pts ← pyIterate kp
      let d1 ← pyAssign d "key_points" (PyVal.str (bulletLines pts))
      let tp ← pySubscript d1 "topics"
      let tps ← pyIterate tp
      let d2 ← pyAssign d1 "topics" (PyVal.str (bulletLines tps))
      pure d2, fx)

/-- Everything observable about one `summarize_transcript` call. -/
structure SummarizeResult where
  /-- the returned record, or the text of an uncaught exception -/
  result : Except String PyVal
  /-- diagnostics printed by the handler of source line 168 -/
  printed : List String
  /-- the calls `eval` executed while evaluating the reply -/
  effects : List String
  /-- how many times the LLM client was invoked -/
  llmCalls : Nat

/-- Embedding of `summarize_transcript` (source lines 98-173).  An absent
or empty credential raises `ValueError` before the client is built (source
lines 113-114).  Otherwise the client is invoked once, at temperature `0`,
on the rendered prompt (source lines 116-156), and the reply is processed;
any exception of the `try` block is caught, a diagnostic is printed, and
the fixed fallback record is returned (source lines 167-173). -/
def summarize_transcript (apiKey : Option String) (llm : LlmClient)
    (transcript_text : String) (max_length : Nat) : SummarizeResult :=
  if pyFalsyKey apiKey then ⟨Except.error credErrMsg, [], [], 0⟩
  else
    match processReply (llm (renderedTemplate transcript_text max_length) 0) with
    | (Except.ok d, fx) => ⟨Except.ok d, [], fx, 1⟩
    | (Except.error e, fx) =>
      ⟨Except.ok fallbackDict, [summaryErrHeader ++ e], fx, 1⟩

/-! ## Full content analysis (source lines 175-193) -/

/-- Embedding of `analyze_video_content` (source lines 175-193): resolve
the transcript, apply the falsy test `if not transcript_result` (`None`
and the empty string), otherwise summarize it with the default
`max_length` of `500`.  The second component counts how many times
`summarize_transcript` was invoked; an exception of the summarizer (the
credential `ValueError`) propagates uncaught. -/
def analyze_video_content (cenv : CaptionsEnv) (apiKey : Option String)
    (llm : LlmClient) : Except String (Option PyVal) × Nat :=
  match (get_video_transcript cenv).1 with
  | Option.none => (Except.ok Option.none, 0)
  | some text =>
    if text = "" then (Except.ok Option.none, 0)
    else
      match (summarize_transcript apiKey llm text 500).result with
      | Except.error e => (Except.error e, 1)
      | Except.ok d => (Except.ok (some d), 1)

/-! ## Concrete environments and client stubs used by the theorems -/

/-- A captions environment whose only track is a manually authored `ko`
track; fetching yields one segment. -/
def cenvManualKo : CaptionsEnv :=
  ⟨Except.ok [⟨"ko", false, true⟩], fun _ => Except.ok [⟨0, "같은 내용"⟩]⟩

/-- A captions environment whose only track is an auto-generated `ko`
track; fetching yields the same segment as `cenvManualKo`. -/
def cenvAutoKo : CaptionsEnv :=
  ⟨Except.ok [⟨"ko", true, true⟩], fun _ => Except.ok [⟨0, "같은 내용"⟩]⟩

/-- A captions environment with no tracks at all. -/
def cenvNoTracks : CaptionsEnv :=
  ⟨Except.ok [], fun _ => Except.error "HTTPError"⟩

/-- A captions environment with one manual `ko` track and one segment. -/
def cenvKo : CaptionsEnv :=
  ⟨Except.ok [⟨"ko", false, true⟩], fun _ => Except.ok [⟨0, "안녕"⟩]⟩

/-- A captions environment whose only segment has empty text, so the
formatted transcript is the empty — falsy — string. -/
def cenvEmptySeg : CaptionsEnv :=
  ⟨Except.ok [⟨"ko", false, true⟩], fun _ => Except.ok [⟨0, ""⟩]⟩

/-- A stubbed client whose reply is unstructured prose (fails to parse). -/
def stubLlm0 : LlmClient := fun _ _ => PyReply.malformed "free-form prose"

/-- A stubbed client whose reply has the requested keys but a plain
string — a wrong type — under `key_points`. -/
def c2llm : LlmClient := fun _ _ => PyReply.expr (PyExpr.dict
  [("summary", PyExpr.str "ok"), ("key_points", PyExpr.str "ab"),
   ("topics", PyExpr.list [PyExpr.str "t"])])

/-- The record `summarize_transcript` actually returns for `c2llm`: the
characters of `"ab"` were bulleted one by one. -/
def c2Dict : PyVal := PyVal.dict
  [("summary", PyVal.str "ok"), ("key_points", PyVal.str "• a\n• b"),
   ("topics", PyVal.str "• t")]

/-- A stubbed client whose reply is a call expression — `eval` executes
it. -/
def c3llm : LlmClient := fun _ _ =>
  PyReply.expr (PyExpr.call "__import__" [PyExpr.str "os"])

/-- A stubbed client whose reply parses cleanly but lacks the `summary`
key. -/
def c7llm : LlmClient := fun _ _ => PyReply.expr (PyExpr.dict
  [("key_points", PyExpr.list [PyExpr.str "a"]),
   ("topics", PyExpr.list [PyExpr.str "b"])])

/-- A well-shaped deterministic reply. -/
def detReply : PyReply := PyReply.expr (PyExpr.dict
  [("summary", PyExpr.str "영상 요약"),
   ("key_points", PyExpr.list [PyExpr.str "포인트"]),
   ("topics", PyExpr.list [PyExpr.str "주제"])])

/-- A stubbed client answering `detReply` at every temperature. -/
def llmStubA : LlmClient := fun _ _ => detReply

/-- A stubbed client answering `detReply` at temperature `0` and junk at
every other temperature; it agrees with `llmStubA` only at `0`. -/
def llmStubB : LlmClient := fun _ temp =>
  if temp = 0 then detReply else PyReply.malformed "nondeterministic"

/-! ## Helper lemmas for time-code formatting -/

/-- Rendering a cast natural with `pad2` agrees with `padTwo`. -/
lemma pad2_natCast (k : ℕ) : pad2 (k : ℤ) = padTwo k := by
  unfold pad2 padTwo
  have hts : toString ((k : ℤ)) = toString k := rfl
  by_cases h : k < 10
  · rw [if_pos ⟨Int.natCast_nonneg k, by exact_mod_cast h⟩, if_pos h, hts]
  · rw [if_neg (fun hc => h (by exact_mod_cast hc.2)), if_neg h, hts]

/-- On nonnegative rationals the integer floor is the natural floor. -/
lemma int_floor_of_nonneg {q : ℚ} (h : 0 ≤ q) : ⌊q⌋ = ((⌊q⌋₊ : ℕ) : ℤ) := by
  rw [← Int.floor_toNat, Int.toNat_of_nonneg (Int.floor_nonneg.mpr h)]

/-- Numeral-to-cast normalization for the divisor `3600`. -/
lemma cast3600 : (3600 : ℚ) = ((3600 : ℕ) : ℚ) := by norm_num

/-- Numeral-to-cast normalization for the divisor `60`. -/
lemma cast60 : (60 : ℚ) = ((60 : ℕ) : ℚ) := by norm_num

/-- Floor of a nonnegative rational divided by a natural. -/
lemma floor_div_nat_int (q : ℚ) (hq : 0 ≤ q) (b : ℕ) :
    ⌊q / (b : ℚ)⌋ = ((⌊q⌋₊ / b : ℕ) : ℤ) := by
  have hdiv : 0 ≤ q / (b : ℚ) := div_nonneg hq (by positivity)
  rw [int_floor_of_nonneg hdiv, Nat.floor_div_nat]

/-- Python modulo of a nonnegative rational by a natural splits into the
natural modulo of the floor plus the fractional part. -/
lemma pymod_nat (q : ℚ) (hq : 0 ≤ q) (b : ℕ) :
    pymod q (b : ℚ) = ((⌊q⌋₊ % b : ℕ) : ℚ) + Int.fract q := by
  unfold pymod
  rw [floor_div_nat_int q hq b]
  have hfr : Int.fract q = q - ((⌊q⌋₊ : ℕ) : ℚ) := by
    rw [← Int.self_sub_floor, int_floor_of_nonneg hq]
    norm_num
  have hcast : (((⌊q⌋₊ / b : ℕ) : ℤ) : ℚ) = ((⌊q⌋₊ / b : ℕ) : ℚ) := by
    norm_cast
  have hmod : ((⌊q⌋₊ % b : ℕ) : ℚ) =
      ((⌊q⌋₊ : ℕ) : ℚ) - (b : ℚ) * ((⌊q⌋₊ / b : ℕ) : ℚ) := by
    have h1 := Nat.div_add_mod ⌊q⌋₊ b
    have h2 : ((b * (⌊q⌋₊ / b) + ⌊q⌋₊ % b : ℕ) : ℚ) = ((⌊q⌋₊ : ℕ) : ℚ) := by
      rw [h1]
    rw [Nat.cast_add, Nat.cast_mul] at h2
    linarith
  rw [hcast, hfr, hmod]
  ring

/-- Natural floor of a cast natural plus a fractional part. -/
lemma nat_floor_cast_add_fract (k : ℕ) (q : ℚ) :
    ⌊((k : ℕ) : ℚ) + Int.fract q⌋₊ = k := by
  rw [add_comm, Nat.floor_add_nat (Int.fract_nonneg q)]
  rw [Nat.floor_eq_zero.mpr (Int.fract_lt_one q), zero_add]

/-- Integer floor of a cast natural plus a fractional part. -/
lemma int_floor_cast_add_fract (k : ℕ) (q : ℚ) :
    ⌊((k : ℕ) : ℚ) + Int.fract q⌋ = (k : ℤ) := by
  have h : ((k : ℕ) : ℚ) = (((k : ℕ) : ℤ) : ℚ) := by norm_cast
  rw [h, Int.floor_int_add, Int.floor_fract, add_zero]

/-- The `format_time` of the source agrees with the spec-side renderer on
every nonnegative offset: fields come from the truncated whole seconds. -/
lemma format_time_eq_spec (q : ℚ) (hq : 0 ≤ q) :
    format_time q = formatTimeSpec ⌊q⌋₊ := by
  unfold format_time formatTimeSpec
  have hhours : ⌊q / 3600⌋ = ((⌊q⌋₊ / 3600 : ℕ) : ℤ) := by
    rw [cast3600]
    exact floor_div_nat_int q hq 3600
  have hm : pymod q 3600 = ((⌊q⌋₊ % 3600 : ℕ) : ℚ) + Int.fract q := by
    rw [cast3600]
    exact pymod_nat q hq 3600
  have hmnonneg : 0 ≤ pymod q 3600 := by
    rw [hm]
    have := Int.fract_nonneg q
    positivity
  have hminutes : ⌊pymod q 3600 / 60⌋ = ((⌊q⌋₊ % 3600 / 60 : ℕ) : ℤ) := by
    rw [cast60, floor_div_nat_int (pymod q 3600) hmnonneg 60, hm,
      nat_floor_cast_add_fract]
  have hsecs : ⌊pymod q 60⌋ = ((⌊q⌋₊ % 60 : ℕ) : ℤ) := by
    rw [cast60, pymod_nat q hq 60, int_floor_cast_add_fract]
  dsimp only
  rw [hhours, hminutes, hsecs, pad2_natCast, pad2_natCast, pad2_natCast]
  by_cases hbig : 3600 ≤ ⌊q⌋₊
  · rw [if_pos (by exact_mod_cast (Nat.div_pos_iff (by norm_num)).mpr hbig),
      if_pos hbig]
  · rw [if_neg (by
        intro hc
        exact hbig
          ((Nat.div_pos_iff (by norm_num : (3600:ℕ) ≠ 0)).mp (by exact_mod_cast hc))),
      if_neg hbig, Nat.mod_eq_of_lt (by omega)]

/-- Offset `0` renders as `"00:00"`. -/
lemma format_time_zero : format_time 0 = "00:00" := by
  have h := format_time_eq_spec 0 le_rfl
  rw [h, show ⌊(0:ℚ)⌋₊ = 0 by norm_num]
  decide

/-- Offset `65` renders as `"01:05"`. -/
lemma format_time_65 : format_time 65 = "01:05" := by
  have h := format_time_eq_spec 65 (by norm_num)
  rw [h, show ⌊(65:ℚ)⌋₊ = 65 by norm_num]
  decide

/-- Offset `3725` renders as `"01:02:05"`. -/
lemma format_time_3725 : format_time 3725 = "01:02:05" := by
  have h := format_time_eq_spec 3725 (by norm_num)
  rw [h, show ⌊(3725:ℚ)⌋₊ = 3725 by norm_num]
  decide

/-- Offset `59.9` renders as `"00:59"`: the fraction is truncated. -/
lemma format_time_59_9 : format_time (599/10) = "00:59" := by
  have h := format_time_eq_spec (599/10) (by norm_num)
  rw [h, show ⌊(599/10:ℚ)⌋₊ = 59 from
    (Nat.floor_eq_iff (by norm_num)).mpr (by norm_num)]
  decide

/-! ## Claim theorems -/

/-- C1 (amended): for every track set, transcript resolution tries the
ordered fallback chain and stops at the first success — a manually
authored `ko` track is selected with flag `false`; failing that, an
auto-generated `ko` track with flag `true`; failing that, a translatable
`en` track is machine-translated to `ko` with flag `true`; with none of
the three the selection fails — and on success `get_video_transcript`
returns the plain text fetched for the track (the flag is computed but not part
of the returned result). -/
theorem transcript_fallback_chain_order (tracks : List CaptionTrack) :
    ((∃ t ∈ tracks, isManualTarget t = true) →
      ∃ t ∈ tracks, isManualTarget t = true ∧
        selectTranscript tracks = some (t, false))
    ∧ ((∀ t ∈ tracks, isManualTarget t = false) →
      (∃ t ∈ tracks, isGeneratedTarget t = true) →
      ∃ t ∈ tracks, isGeneratedTarget t = true ∧
        selectTranscript tracks = some (t, true))
    ∧ ((∀ t ∈ tracks, isManualTarget t = false) →
      (∀ t ∈ tracks, isGeneratedTarget t = false) →
      (∃ t ∈ tracks, isTranslatableSource t = true) →
      ∃ t ∈ tracks, isTranslatableSource t = true ∧
        selectTranscript tracks = some (translateTrack t "ko", true))
    ∧ ((∀ t ∈ tracks, isManualTarget t = false) →
      (∀ t ∈ tracks, isGeneratedTarget t = false) →
      (∀ t ∈ tracks, isTranslatableSource t = false) →
      selectTranscript tracks = Option.none)
    ∧ (∀ cenv : CaptionsEnv, cenv.listTracks = Except.ok tracks →
      ∀ t b, selectTranscript tracks = some (t, b) →
      ∀ segs, cenv.fetch t = Except.ok segs →
      get_video_transcript cenv = (some (text_formatter_format segs), [])) := by
  refine ⟨?_, ?_, ?_, ?_, ?_⟩
  · rintro ⟨t, ht, hp⟩
    have hs : (tracks.find? isManualTarget).isSome :=
      List.find?_isSome.mpr ⟨t, ht, hp⟩
    obtain ⟨u, hu⟩ := Option.isSome_iff_exists.mp hs
    exact ⟨u, List.mem_of_find?_eq_some hu, List.find?_some hu,
      by unfold selectTranscript; rw [hu]⟩
  · rintro hM ⟨t, ht, hp⟩
    have hMn : tracks.find? isManualTarget = Option.none :=
      List.find?_eq_none.mpr (fun x hx => by simp [hM x hx])
    have hs : (tracks.find? isGeneratedTarget).isSome :=
      List.find?_isSome.mpr ⟨t, ht, hp⟩
    obtain ⟨u, hu⟩ := Option.isSome_iff_exists.mp hs
    exact ⟨u, List.mem_of_find?_eq_some hu, List.find?_some hu,
      by unfold selectTranscript; rw [hMn, hu]⟩
  · rintro hM hG ⟨t, ht, hp⟩
    have hMn : tracks.find? isManualTarget = Option.none :=
      List.find?_eq_none.mpr (fun x hx => by simp [hM x hx])
    have hGn : tracks.find? isGeneratedTarget = Option.none :=
      List.find?_eq_none.mpr (fun x hx => by simp [hG x hx])
    have hs : (tracks.find? isTranslatableSource).isSome :=
      List.find?_isSome.mpr ⟨t, ht, hp⟩
    obtain ⟨u, hu⟩ := Option.isSome_iff_exists.mp hs
    exact ⟨u, List.mem_of_find?_eq_some hu, List.find?_some hu,
      by unfold selectTranscript; rw [hMn, hGn, hu]⟩
  · intro hM hG hT
    have hMn : tracks.find? isManualTarget = Option.none :=
      List.find?_eq_none.mpr (fun x hx => by simp [hM x hx])
    have hGn : tracks.find? isGeneratedTarget = Option.none :=
      List.find?_eq_none.mpr (fun x hx => by simp [hG x hx])
    have hTn : tracks.find? isTranslatableSource = Option.none :=
      List.find?_eq_none.mpr (fun x hx => by simp [hT x hx])
    unfold selectTranscript
    rw [hMn, hGn, hTn]
  · intro cenv hls t b hsel segs hf
    simp only [get_video_transcript, hls, hsel, hf]

/-- C1 witness: on a track set holding only an auto-generated `ko` track,
the chain skips the manual step and selects that track with flag `true`. -/
theorem transcript_fallback_chain_order_witness :
    ∃ t ∈ [CaptionTrack.mk "ko" true true], isGeneratedTarget t = true ∧
      selectTranscript [CaptionTrack.mk "ko" true true] = some (t, true) :=
  (transcript_fallback_chain_order [CaptionTrack.mk "ko" true true]).2.1
    (by decide) (by decide)

/-- C1 counterexample: two runs whose selected tracks carry different
`auto_generated` flags return byte-identical results, so the selected
flag of the track is not reflected in the returned result, contrary to
the final clause of the claim. -/
theorem transcript_flag_not_in_result :
    get_video_transcript cenvManualKo = get_video_transcript cenvAutoKo
    ∧ (selectTranscript [⟨"ko", false, true⟩]).map Prod.snd = some false
    ∧ (selectTranscript [⟨"ko", true, true⟩]).map Prod.snd = some true
    ∧ cenvManualKo.listTracks = Except.ok [⟨"ko", false, true⟩]
    ∧ cenvAutoKo.listTracks = Except.ok [⟨"ko", true, true⟩] :=
  ⟨rfl, rfl, rfl, rfl, rfl⟩

/-- C4: when resolution fails — listing the tracks raises (captions
disabled), no step of the fallback chain finds a track, or fetching the
chosen track raises (network error) — `get_video_transcript` returns the
`None` sentinel together with exactly one printed human-readable
diagnostic, and no exception escapes (the embedding is a total function
into `Option`). -/
theorem resolve_failure_returns_none_with_diag (cenv : CaptionsEnv) :
    (∀ e, cenv.listTracks = Except.error e →
      get_video_transcript cenv = (Option.none, [transcriptErrHeader ++ e]))
    ∧ (∀ tracks, cenv.listTracks = Except.ok tracks →
      selectTranscript tracks = Option.none →
      get_video_transcript cenv =
        (Option.none, [transcriptErrHeader ++ noTranscriptMsg]))
    ∧ (∀ tracks t b e, cenv.listTracks = Except.ok tracks →
      selectTranscript tracks = some (t, b) → cenv.fetch t = Except.error e →
      get_video_transcript cenv = (Option.none, [transcriptErrHeader ++ e])) := by
  refine ⟨fun e he => ?_, fun tracks hls hsel => ?_,
    fun tracks t b e hls hsel hf => ?_⟩
  · simp only [get_video_transcript, he]
  · simp only [get_video_transcript, hls, hsel]
  · simp only [get_video_transcript, hls, hsel, hf]

/-- C4 witness: with zero caption tracks the resolver returns `None` and
prints the diagnostic. -/
theorem resolve_failure_returns_none_with_diag_witness :
    get_video_transcript cenvNoTracks =
      (Option.none, [transcriptErrHeader ++ noTranscriptMsg]) :=
  (resolve_failure_returns_none_with_diag cenvNoTracks).2.1 [] rfl rfl

/-- C5: on every nonnegative offset `format_time` renders the truncated
whole seconds with zero-padded two-digit fields, `HH:MM:SS` from one hour
on and `MM:SS` below it, and in particular `0 ↦ "00:00"`,
`65 ↦ "01:05"`, `3725 ↦ "01:02:05"` and `59.9 ↦ "00:59"`. -/
theorem format_time_ok :
    (∀ q : ℚ, 0 ≤ q → format_time q = formatTimeSpec ⌊q⌋₊)
    ∧ format_time 0 = "00:00" ∧ format_time 65 = "01:05"
    ∧ format_time 3725 = "01:02:05" ∧ format_time (599/10) = "00:59" :=
  ⟨format_time_eq_spec, format_time_zero, format_time_65, format_time_3725,
    format_time_59_9⟩

/-- C5 witness: the universal part applied to the offset `7325.5`. -/
theorem format_time_ok_witness :
    format_time (14651/2) = formatTimeSpec 7325 := by
  have h := format_time_ok.1 (14651/2) (by norm_num)
  rwa [show ⌊(14651/2 : ℚ)⌋₊ = 7325 from
    (Nat.floor_eq_iff (by norm_num)).mpr (by norm_num)] at h

/-- C6: with an available transcript the time-coded rendering does not
produce one line per segment — the function subscripts the plain
transcript string with the key `segments` and raises `TypeError`; the
spec-side renderer shows what the claim expected for the same input. -/
theorem timestamps_raises_type_error :
    (get_transcript_with_timestamps cenvKo).1 =
      Except.error "TypeError: string indices must be integers"
    ∧ (get_video_transcript cenvKo).1 = some "안녕"
    ∧ timecodeRenderingSpec [⟨0, "안녕"⟩] = "[00:00] 안녕" := by
  refine ⟨rfl, rfl, ?_⟩
  simp only [timecodeRenderingSpec, List.map, format_time_zero]
  rfl

/-- C10: whenever transcript resolution yields no text or the empty —
falsy — text, the time-coded rendering and the full content analysis both
return the `None` sentinel and the summarizer is invoked zero times, for
every credential and client. -/
theorem falsy_transcript_short_circuit (cenv : CaptionsEnv)
    (key : Option String) (llm : LlmClient)
    (h : (get_video_transcript cenv).1 = Option.none ∨
      (get_video_transcript cenv).1 = some "") :
    analyze_video_content cenv key llm = (Except.ok Option.none, 0)
    ∧ (get_transcript_with_timestamps cenv).1 = Except.ok Option.none := by
  rcases h with h | h
  · exact ⟨by simp only [analyze_video_content, h],
      by simp only [get_transcript_with_timestamps, h]⟩
  · exact ⟨by simp [analyze_video_content, h],
      by simp [get_transcript_with_timestamps, h]⟩

/-- C10 witness: a present-but-empty transcript (one empty segment) is
treated exactly like an unavailable one. -/
theorem falsy_transcript_short_circuit_witness :
    analyze_video_content cenvEmptySeg (some "sk-live") stubLlm0 =
      (Except.ok Option.none, 0)
    ∧ (get_transcript_with_timestamps cenvEmptySeg).1 = Except.ok Option.none :=
  falsy_transcript_short_circuit cenvEmptySeg (some "sk-live") stubLlm0 (Or.inr rfl)

/-- C8: with an absent or empty credential `summarize_transcript` raises
the `ValueError` precondition failure at once — nothing is printed and
the LLM client is invoked zero times; with a credential present that
failure branch is never taken: the call always returns a record and the
client is invoked exactly once. -/
theorem summarize_credential_gate :
    (∀ (llm : LlmClient) t m, summarize_transcript Option.none llm t m =
      ⟨Except.error credErrMsg, [], [], 0⟩)
    ∧ (∀ (llm : LlmClient) t m, summarize_transcript (some "") llm t m =
      ⟨Except.error credErrMsg, [], [], 0⟩)
    ∧ (∀ key (llm : LlmClient) t m, pyFalsyKey key = false →
      (∃ d, (summarize_transcript key llm t m).result = Except.ok d)
      ∧ (summarize_transcript key llm t m).llmCalls = 1) := by
  refine ⟨fun llm t m => rfl, fun llm t m => rfl, fun key llm t m hk => ?_⟩
  unfold summarize_transcript
  rw [hk, if_neg Bool.false_ne_true]
  rcases hpr : processReply (llm (renderedTemplate t m) 0) with ⟨r, fx⟩
  cases r with
  | ok d => exact ⟨⟨d, rfl⟩, rfl⟩
  | error e => exact ⟨⟨fallbackDict, rfl⟩, rfl⟩

/-- C8 witness: the gate applied to an absent key, and the
credential-present half applied to a concrete key. -/
theorem summarize_credential_gate_witness :
    summarize_transcript Option.none stubLlm0 "x" 500 =
      ⟨Except.error credErrMsg, [], [], 0⟩
    ∧ (summarize_transcript (some "sk-test") stubLlm0 "x" 500).llmCalls = 1 :=
  ⟨summarize_credential_gate.1 stubLlm0 "x" 500,
    (summarize_credential_gate.2.2 (some "sk-test") stubLlm0 "x" 500 (by decide)).2⟩

/-- C9: the client is consulted exactly once, at temperature `0`, on a
prompt determined by the transcript and the bound alone — so any two
deterministic clients that agree at temperature `0` (in particular the
same stub twice) produce structurally identical summary records. -/
theorem summarize_deterministic (key : Option String) (llm1 llm2 : LlmClient)
    (t : String) (m : ℕ) (h : ∀ p, llm1 p 0 = llm2 p 0) :
    summarize_transcript key llm1 t m = summarize_transcript key llm2 t m := by
  unfold summarize_transcript
  rw [h]

/-- C9 witness: a stub constant in the temperature and a stub answering
junk away from temperature `0` agree at `0`, and the two summarize runs
coincide. -/
theorem summarize_deterministic_witness :
    summarize_transcript (some "sk") llmStubA "자막 내용" 500 =
      summarize_transcript (some "sk") llmStubB "자막 내용" 500 :=
  summarize_deterministic (some "sk") llmStubA llmStubB "자막 내용" 500
    (fun p => by simp [llmStubA, llmStubB])

/-- C2 (amended): with the credential present, whenever processing the
reply raises — malformed syntax, a missing `key_points` or `topics` key,
a non-iterable field — `summarize_transcript` catches the exception,
prints one diagnostic carrying it, and returns the fixed fallback record;
no exception propagates: the call always returns a record. -/
theorem summarize_exception_fallback (key : Option String) (llm : LlmClient)
    (t : String) (m : ℕ) (hk : pyFalsyKey key = false) :
    (∀ e fx, processReply (llm (renderedTemplate t m) 0) = (Except.error e, fx) →
      summarize_transcript key llm t m =
        ⟨Except.ok fallbackDict, [summaryErrHeader ++ e], fx, 1⟩)
    ∧ (∃ d, (summarize_transcript key llm t m).result = Except.ok d) := by
  constructor
  · intro e fx he
    unfold summarize_transcript
    rw [hk, if_neg Bool.false_ne_true, he]
  · unfold summarize_transcript
    rw [hk, if_neg Bool.false_ne_true]
    rcases hpr : processReply (llm (renderedTemplate t m) 0) with ⟨r, fx⟩
    cases r with
    | ok d => exact ⟨d, rfl⟩
    | error e => exact ⟨fallbackDict, rfl⟩

/-- C2 witness: an unparseable prose reply yields the fallback record and
the printed diagnostic, with no escaping exception. -/
theorem summarize_exception_fallback_witness :
    summarize_transcript (some "sk") stubLlm0 "자막" 500 =
      ⟨Except.ok fallbackDict, [summaryErrHeader ++ "SyntaxError: free-form prose"],
        [], 1⟩ :=
  (summarize_exception_fallback (some "sk") stubLlm0 "자막" 500 (by decide)).1
    "SyntaxError: free-form prose" [] rfl

/-- C2 counterexample: a reply whose `key_points` has the wrong type — a
plain string instead of a list of strings — raises nothing, so the code
returns a transformed record with the characters bulleted one by one
rather than the fixed fallback record the claim demands. -/
theorem summarize_wrong_type_no_fallback :
    (summarize_transcript (some "sk") c2llm "자막" 500).result = Except.ok c2Dict
    ∧ (summarize_transcript (some "sk") c2llm "자막" 500).printed = []
    ∧ c2Dict ≠ fallbackDict := by
  refine ⟨rfl, rfl, ?_⟩
  intro h
  simp only [c2Dict, fallbackDict] at h
  simp at h

/-- C3: `summarize_transcript` does execute the content of the reply as code —
`eval` of a reply consisting of a call expression runs the call (the
effect trace is nonempty), refuting the claim that parsing never
evaluates the reply; the resulting `None` then fails the shape checks and
the fallback record is returned. -/
theorem summarize_eval_executes_reply :
    (summarize_transcript (some "sk") c3llm "자막" 500).effects = ["__import__"]
    ∧ (summarize_transcript (some "sk") c3llm "자막" 500).effects ≠ []
    ∧ (summarize_transcript (some "sk") c3llm "자막" 500).result =
      Except.ok fallbackDict := by
  refine ⟨rfl, ?_, rfl⟩
  intro h
  exact List.cons_ne_nil "__import__" [] h

/-- C7: a reply that parses cleanly but lacks the `summary` key is
returned with the key still missing — looking `summary` up in the
returned record raises `KeyError` — so not every returned record carries
all three fields, contrary to the claim (and to the fallback record,
which does carry all three). -/
theorem summarize_missing_summary_field :
    ∃ d, (summarize_transcript (some "sk") c7llm "자막" 500).result = Except.ok d
      ∧ pySubscript d "summary" = Except.error "KeyError: summary"
      ∧ (summarize_transcript (some "sk") c7llm "자막" 500).printed = []
      ∧ pySubscript fallbackDict "summary" =
        Except.ok (PyVal.str "요약을 생성할 수 없습니다.") :=
  ⟨PyVal.dict [("key_points", PyVal.str "• a"), ("topics", PyVal.str "• b")],
    rfl, rfl, rfl, rfl⟩
